import Mathlib

/-!
Verification of the redis-watcher core against its specification.

The Go source is shallowly embedded below: the message codec
(`MSG.MarshalBinary` / `MSG.UnmarshalBinary`, which are thin wrappers over
`encoding/json`) is modelled at the JSON-value level; the option
validation and client construction of `NewWatcher` as a pure function;
the subscriber goroutine of `Watcher.subscribe` as an event-trace
function; and the lifecycle operations (`Close`, `SetUpdateCallback`,
`initConfig`) as explicit state transformers.
-/

namespace RedisWatcher

/-- JSON values, the abstract form of the byte strings produced and
consumed by `encoding/json` for the `MSG` wire envelope. -/
inductive JValue where
  | jnull : JValue
  | jstr : String → JValue
  | jarr : List JValue → JValue
  | jobj : List (String × JValue) → JValue

/-- Policy-model snapshot, the payload of `UpdateForSavePolicy`:
sections, each mapping a key to a rule list. -/
abbrev Snapshot := List (String × List (String × List (List String)))

/-- Go values that occur in the `Params interface{}` field of `MSG`:
a string, a `[]string` slice, a policy model, or a generic JSON value
(what `json.Unmarshal` places into an `interface{}`). -/
inductive GoVal where
  | vstr : String → GoVal
  | vstrList : List String → GoVal
  | vmodel : Snapshot → GoVal
  | vjson : JValue → GoVal

/-- The wire envelope `MSG` of watcher.go. -/
structure MSG where
  Method : String
  ID : String
  Sec : String
  Ptype : String
  Params : GoVal

/-- JSON form of a policy-model snapshot, as `json.Marshal` renders the
`model.Model` payload of `UpdateForSavePolicy`. -/
def encodeSnapshot (m : Snapshot) : JValue :=
  JValue.jobj (m.map fun sec =>
    (sec.1, JValue.jobj (sec.2.map fun ast =>
      (ast.1, JValue.jarr (ast.2.map fun rule =>
        JValue.jarr (rule.map JValue.jstr))))))

/-- How `json.Marshal` renders each kind of value stored in
`MSG.Params`: strings as JSON strings, `[]string` as an array of
strings, a model as its object form, and a generic JSON value as
itself. -/
def encodeParams : GoVal → JValue
  | GoVal.vstr s => JValue.jstr s
  | GoVal.vstrList xs => JValue.jarr (xs.map JValue.jstr)
  | GoVal.vmodel m => encodeSnapshot m
  | GoVal.vjson v => v

/-- `MSG.MarshalBinary`: `json.Marshal` of the `MSG` struct, an object
whose keys are the field names in declaration order. -/
def encodeMSG (m : MSG) : JValue :=
  JValue.jobj [("Method", JValue.jstr m.Method), ("ID", JValue.jstr m.ID),
    ("Sec", JValue.jstr m.Sec), ("Ptype", JValue.jstr m.Ptype),
    ("Params", encodeParams m.Params)]

/-- Object-key lookup as `json.Unmarshal` performs it: the last
occurrence of the key wins. -/
def jlookup (fields : List (String × JValue)) (k : String) : Option JValue :=
  (fields.filter fun p => p.1 == k).getLast?.map Prod.snd

/-- Decoding one `string`-typed struct field: a missing key leaves the
zero value `""`; a key bound to a non-string JSON value is a type
error. -/
def decodeStrField (fields : List (String × JValue)) (k : String) : Option String :=
  match jlookup fields k with
  | none => some ""
  | some (JValue.jstr s) => some s
  | some _ => none

/-- What `json.Unmarshal` places into an `interface{}` field: a JSON
string becomes a Go `string`; every other JSON value stays generic
(`nil`, `[]interface\x7b\x7d`, `map[string]interface\x7b\x7d`). -/
def decodeParams : JValue → GoVal
  | JValue.jstr s => GoVal.vstr s
  | v => GoVal.vjson v

/-- The `Params` field after unmarshalling: a missing key leaves the
zero value `nil`. -/
def decodeParamsField (fields : List (String × JValue)) : GoVal :=
  match jlookup fields "Params" with
  | none => GoVal.vjson JValue.jnull
  | some v => decodeParams v

/-- `MSG.UnmarshalBinary`: `json.Unmarshal` into a fresh `MSG`. A
non-object document is a type error. -/
def decodeMSG : JValue → Option MSG
  | JValue.jobj fields => do
      let method ← decodeStrField fields "Method"
      let idv ← decodeStrField fields "ID"
      let sec ← decodeStrField fields "Sec"
      let ptype ← decodeStrField fields "Ptype"
      pure ⟨method, idv, sec, ptype, decodeParamsField fields⟩
  | _ => none

/-- Decoding an encoded envelope recovers the four string fields and
rewrites `Params` through the generic `interface\x7b\x7d` decoding. -/
theorem decodeMSG_encodeMSG (e : MSG) :
    decodeMSG (encodeMSG e) =
      some ⟨e.Method, e.ID, e.Sec, e.Ptype, decodeParams (encodeParams e.Params)⟩ := rfl

/-- Re-encoding after a decode yields the original wire value. -/
theorem encodeParams_decodeParams (g : GoVal) :
    encodeParams (decodeParams (encodeParams g)) = encodeParams g := by
  cases g with
  | vstr s => rfl
  | vstrList xs => rfl
  | vmodel m => rfl
  | vjson v => cases v <;> rfl

/-- Envelope built by `Watcher.Update`: empty `Sec`, `Ptype` and an
empty-string payload. -/
def updateMsg (localID : String) : MSG :=
  ⟨"Update", localID, "", "", GoVal.vstr ""⟩

/-- Envelope built by `Watcher.UpdateForAddPolicy`: the variadic
`params` slice is the payload. -/
def updateForAddPolicyMsg (localID sec ptype : String) (params : List String) : MSG :=
  ⟨"UpdateForAddPolicy", localID, sec, ptype, GoVal.vstrList params⟩

/-- Envelope built by `Watcher.UpdateForRemovePolicy`: same payload
shape as `UpdateForAddPolicy`. -/
def updateForRemovePolicyMsg (localID sec ptype : String) (params : List String) : MSG :=
  ⟨"UpdateForRemovePolicy", localID, sec, ptype, GoVal.vstrList params⟩

/-- Envelope built by `Watcher.UpdateForRemoveFilteredPolicy`: the
payload is `fmt.Sprintf` of the field index, a space, and the
space-joined field values. -/
def updateForRemoveFilteredPolicyMsg (localID sec ptype : String)
    (fieldIndex : Int) (fieldValues : List String) : MSG :=
  ⟨"UpdateForRemoveFilteredPolicy", localID, sec, ptype,
    GoVal.vstr (toString fieldIndex ++ " " ++ String.intercalate " " fieldValues)⟩

/-- Envelope built by `Watcher.UpdateForSavePolicy`: empty `Sec` and
`Ptype`, the model snapshot as payload. -/
def updateForSavePolicyMsg (localID : String) (m : Snapshot) : MSG :=
  ⟨"UpdateForSavePolicy", localID, "", "", GoVal.vmodel m⟩

/-- Reading a JSON array of strings back as a string list. -/
def strListOfJ : List JValue → Option (List String)
  | [] => some []
  | JValue.jstr s :: vs =>
      match strListOfJ vs with
      | some ss => some (s :: ss)
      | none => none
  | _ :: _ => none

/-- The field list carried by a JSON value, when it is an array of
strings. -/
def jarrStrings : JValue → Option (List String)
  | JValue.jarr xs => strListOfJ xs
  | _ => none

/-- An array of encoded strings reads back as the original list. -/
theorem strListOfJ_map_jstr (params : List String) :
    strListOfJ (params.map JValue.jstr) = some params := by
  induction params with
  | nil => rfl
  | cons p ps ih => simp [strListOfJ, ih]

/-- The three resources released by the deferred block of
`Watcher.subscribe`: the `PubSub` subscription returned by
`subClient.Subscribe`, the publish client, and the subscribe client. -/
inductive CloseTarget where
  | pubsub : CloseTarget
  | pubConn : CloseTarget
  | subConn : CloseTarget
  deriving DecidableEq

/-- Observable events of the subscriber goroutine. -/
inductive LoopEvent where
  | callbackInvoked : String → LoopEvent
  | closeAttempt : CloseTarget → LoopEvent
  | logErrorOn : CloseTarget → LoopEvent
  deriving DecidableEq

/-- One `X.Close()` call of the deferred block: the attempt, followed
by a `log.Println` when the close returns an error. The error is
swallowed. -/
def closeOne (errs : CloseTarget → Bool) (t : CloseTarget) : List LoopEvent :=
  LoopEvent.closeAttempt t :: (if errs t then [LoopEvent.logErrorOn t] else [])

/-- The deferred block of `Watcher.subscribe`, run when the goroutine
returns: `sub.Close()`, then `w.pubClient.Close()`, then
`w.subClient.Close()`, each error logged and none propagated. -/
def shutdownEvents (errs : CloseTarget → Bool) : List LoopEvent :=
  closeOne errs CloseTarget.pubsub ++ closeOne errs CloseTarget.pubConn ++
    closeOne errs CloseTarget.subConn

/-- The receive loop of `Watcher.subscribe`. Each inbound message is
paired with the value the non-blocking `select` on `w.close` observes
at its receipt (`true` when `Close()` has already closed the channel):
if the signal is set the goroutine returns (running the deferred
closes); otherwise `w.callback(msg.Payload)` runs on the raw payload
and the loop continues. An exhausted stream ends the range loop and
also runs the deferred closes. -/
def subscribeLoop (errs : CloseTarget → Bool) : List (Bool × String) → List LoopEvent
  | [] => shutdownEvents errs
  | (sig, payload) :: rest =>
      if sig then shutdownEvents errs
      else LoopEvent.callbackInvoked payload :: subscribeLoop errs rest

/-- The order in which close attempts appear in an event trace. -/
def closeTargets (evs : List LoopEvent) : List CloseTarget :=
  evs.filterMap fun e =>
    match e with
    | LoopEvent.closeAttempt t => some t
    | _ => none

/-- The lifecycle state touched by `Watcher.Close`: whether the
`close` channel has already been closed, and the messages published so
far on the configured channel. -/
structure LifecycleState where
  closeChanClosed : Bool
  published : List String
  deriving DecidableEq

/-- Go's `close(ch)` builtin: closing an already-closed channel
panics. -/
def goChanClose (alreadyClosed : Bool) : Except String Unit :=
  if alreadyClosed then Except.error "close of closed channel" else Except.ok ()

/-- `Watcher.Close`: under the mutex, `close(w.close)` followed by a
best-effort publish of the `"Close"` notice whose error is discarded.
An `Except.error` models a Go panic. -/
def watcherClose (s : LifecycleState) : Except String LifecycleState :=
  match goChanClose s.closeChanClosed with
  | Except.error e => Except.error e
  | Except.ok _ =>
      Except.ok { closeChanClosed := true, published := s.published ++ ["Close"] }

/-- The fields of `WatcherOptions` that `NewWatcher` consults. -/
structure WatcherOptions where
  Addresses : List String
  Namespace : String
  UseSentinel : Bool
  MasterName : String
  MaxConnections : Nat
  Password : String
  Channel : String
  LocalID : String
  deriving DecidableEq

/-- `initConfig` of options.go: default the local instance identifier
to a fresh token and the channel to `"/casbin"`. -/
def initConfigOptions (freshUUID : String) (o : WatcherOptions) : WatcherOptions :=
  { o with
    LocalID := if o.LocalID = "" then freshUUID else o.LocalID
    Channel := if o.Channel = "" then "/casbin" else o.Channel }

/-- Which go-redis constructor `NewWatcher` picked. -/
inductive ClientKind where
  | failover : ClientKind
  | cluster : ClientKind
  | single : ClientKind
  deriving DecidableEq

/-- The options handed to the go-redis constructor for one client.
`poolSize = 0` means the `PoolSize` field was left unset. -/
structure ClientSpec where
  kind : ClientKind
  addresses : List String
  masterName : String
  password : String
  poolSize : Nat
  deriving DecidableEq

/-- The pure prefix of `NewWatcher`: option validation, the
`MaxConnections` default of `10 * runtime.NumCPU()`, and the choice
and configuration of the two clients (subscribe, publish). Sentinel
mode wins over the address count; two or more addresses select the
cluster client; otherwise the plain client is built from the first
address with no `PoolSize`. Validation errors are returned before any
client is constructed or pinged. -/
def newWatcherClients (o : WatcherOptions) (numCPU : Nat) :
    Except String (ClientSpec × ClientSpec) :=
  if o.Addresses = [] ∨ o.Addresses.head? = some "" then
    Except.error "redis: missing redis node address(es)"
  else if o.Namespace = "" then
    Except.error "redis: missing key namespace"
  else if o.UseSentinel = true ∧ o.MasterName = "" then
    Except.error "redis: missing MasterName for Sentinel setup"
  else
    let maxConn := if o.MaxConnections = 0 then 10 * numCPU else o.MaxConnections
    if o.UseSentinel then
      let c : ClientSpec := ⟨ClientKind.failover, o.Addresses, o.MasterName, "", maxConn⟩
      Except.ok (c, c)
    else if 1 < o.Addresses.length then
      let c : ClientSpec := ⟨ClientKind.cluster, o.Addresses, "", o.Password, maxConn⟩
      Except.ok (c, c)
    else
      let c : ClientSpec := ⟨ClientKind.single, [o.Addresses.headD ""], "", o.Password, 0⟩
      Except.ok (c, c)

/-- The mutable callback slot of `Watcher`; `none` models a Go `nil`
function value. A callback is modelled as producing the log lines it
would emit. -/
structure CallbackState where
  callback : Option (String → List String)

/-- `Watcher.SetUpdateCallback`: store the argument under the mutex
and return a `nil` error, unconditionally. -/
def setUpdateCallbackM (cb : Option (String → List String)) (_w : CallbackState) :
    CallbackState × Option String :=
  ({ callback := cb }, none)

/-- The default callback installed by `Watcher.initConfig` when no
optional callback is supplied. -/
def defaultCallback : String → List String :=
  fun _ => ["Casbin Redis Watcher callback not set when an update was received"]

/-- The callback-installing part of `Watcher.initConfig`: the optional
callback when present, the logging default otherwise. -/
def initConfigCallback (optionalUpdateCallback : Option (String → List String))
    (w : CallbackState) : CallbackState :=
  match optionalUpdateCallback with
  | some f => (setUpdateCallbackM (some f) w).1
  | none => (setUpdateCallbackM (some defaultCallback) w).1

/-- The loop's `w.callback(data)` call: invoking a `nil` function
value is a runtime panic, modelled as `Except.error`. -/
def invokeCallback (w : CallbackState) (payload : String) : Except String (List String) :=
  match w.callback with
  | none => Except.error "runtime error: invalid memory address or nil pointer dereference"
  | some f => Except.ok (f payload)

/-- Claim C1 (code bug in the source): the first `Close()` closes the
shutdown channel and publishes the best-effort `"Close"` notice, but a
second `Close()` reaches `close(w.close)` on an already-closed channel
and panics, instead of being the no-op the specification requires. -/
theorem watcherClose_second_call_panics :
    watcherClose { closeChanClosed := false, published := [] } =
      Except.ok { closeChanClosed := true, published := ["Close"] } ∧
    Except.bind (watcherClose { closeChanClosed := false, published := [] })
        watcherClose = Except.error "close of closed channel" :=
  ⟨rfl, rfl⟩

/-- Claim C2, counterexample: decoding the encoding of the
`UpdateForAddPolicy` envelope with field list `["alice"]` does not
reproduce the envelope exactly — the `[]string` payload comes back as
a generic JSON array, a different Go value. -/
theorem decode_encode_not_exact_on_lists :
    decodeMSG (encodeMSG (updateForAddPolicyMsg "id" "p" "p" ["alice"])) ≠
      some (updateForAddPolicyMsg "id" "p" "p" ["alice"]) := by
  intro h
  have h0 : some (⟨"UpdateForAddPolicy", "id", "p", "p",
      GoVal.vjson (JValue.jarr [JValue.jstr "alice"])⟩ : MSG) =
      some (updateForAddPolicyMsg "id" "p" "p" ["alice"]) := h
  injection h0 with h1
  exact GoVal.noConfusion (congrArg MSG.Params h1)

/-- Claim C2, amended: decoding the encoding of any envelope succeeds
and reproduces `Method`, `ID`, `Sec` and `Ptype` exactly; the decoded
`Params` re-encodes to the identical wire value; and an envelope whose
payload is a string round-trips exactly. -/
theorem decode_encode_roundtrip_amended (e : MSG) (s : String) :
    (∃ d, decodeMSG (encodeMSG e) = some d ∧
        d.Method = e.Method ∧ d.ID = e.ID ∧ d.Sec = e.Sec ∧ d.Ptype = e.Ptype ∧
        encodeMSG d = encodeMSG e) ∧
    decodeMSG (encodeMSG { e with Params := GoVal.vstr s }) =
      some { e with Params := GoVal.vstr s } := by
  refine ⟨⟨⟨e.Method, e.ID, e.Sec, e.Ptype, decodeParams (encodeParams e.Params)⟩,
      decodeMSG_encodeMSG e, rfl, rfl, rfl, rfl, ?_⟩,
    decodeMSG_encodeMSG { e with Params := GoVal.vstr s }⟩
  simp [encodeMSG, encodeParams_decodeParams]

/-- Claim C5: the `UpdateForRemoveFilteredPolicy` envelope carries as
payload exactly the single string of the field index, a space, and the
space-joined field values — and this survives the codec; at the
concrete input the payload is the string made of the digit one, then
the words data1 and read, space-separated. -/
theorem updateForRemoveFilteredPolicy_payload (localID sec ptype : String)
    (fieldIndex : Int) (fieldValues : List String) :
    (∃ d, decodeMSG (encodeMSG (updateForRemoveFilteredPolicyMsg localID sec ptype
          fieldIndex fieldValues)) = some d ∧
        d.Method = "UpdateForRemoveFilteredPolicy" ∧ d.ID = localID ∧
        d.Params = GoVal.vstr (toString fieldIndex ++ " " ++
          String.intercalate " " fieldValues)) ∧
    (updateForRemoveFilteredPolicyMsg "id" "p" "p" 1 ["data1", "read"]).Params =
      GoVal.vstr "1 data1 read" := by
  exact ⟨⟨_, decodeMSG_encodeMSG _, rfl, rfl, rfl⟩, rfl⟩

/-- Claim C6: the `UpdateForAddPolicy` and `UpdateForRemovePolicy`
envelopes carry the ordered field-value list as payload, and decoding
the encoded envelope recovers exactly that list of strings; at the
concrete input the recovered list is alice, book1, write. -/
theorem updateForAddPolicy_payload (localID sec ptype : String) (params : List String) :
    (∃ d, decodeMSG (encodeMSG (updateForAddPolicyMsg localID sec ptype params)) =
        some d ∧ jarrStrings (encodeParams d.Params) = some params) ∧
    (∃ d, decodeMSG (encodeMSG (updateForRemovePolicyMsg localID sec ptype params)) =
        some d ∧ jarrStrings (encodeParams d.Params) = some params) ∧
    (∃ d, decodeMSG (encodeMSG (updateForAddPolicyMsg "id" "p" "p"
        ["alice", "book1", "write"])) = some d ∧
        jarrStrings (encodeParams d.Params) = some ["alice", "book1", "write"]) :=
  ⟨⟨_, decodeMSG_encodeMSG _, strListOfJ_map_jstr params⟩,
   ⟨_, decodeMSG_encodeMSG _, strListOfJ_map_jstr params⟩,
   ⟨_, decodeMSG_encodeMSG _, strListOfJ_map_jstr ["alice", "book1", "write"]⟩⟩

/-- The deferred block always attempts the three closes in source
order, whatever the close errors are. -/
theorem closeTargets_shutdownEvents (errs : CloseTarget → Bool) :
    closeTargets (shutdownEvents errs) =
      [CloseTarget.pubsub, CloseTarget.pubConn, CloseTarget.subConn] := by
  unfold shutdownEvents closeOne closeTargets
  cases errs CloseTarget.pubsub <;> cases errs CloseTarget.pubConn <;>
    cases errs CloseTarget.subConn <;> rfl

/-- A failing close is logged by the deferred block. -/
theorem logErrorOn_mem_shutdownEvents (errs : CloseTarget → Bool) (t : CloseTarget)
    (h : errs t = true) : LoopEvent.logErrorOn t ∈ shutdownEvents errs := by
  cases t <;> simp [shutdownEvents, closeOne, h]

/-- Claim C3, counterexample: an empty payload and a payload that is
not a valid envelope are both handed to the registered callback as raw
strings — the loop performs no decode and drops nothing. -/
theorem loop_delivers_empty_and_malformed :
    LoopEvent.callbackInvoked "" ∈ subscribeLoop (fun _ => false) [(false, "")] ∧
    LoopEvent.callbackInvoked "not a valid envelope" ∈
      subscribeLoop (fun _ => false) [(false, "not a valid envelope")] := by
  refine ⟨?_, ?_⟩ <;> exact List.Mem.head _

/-- Claim C3, amended: while the shutdown signal stays clear, the loop
invokes the registered callback synchronously with the raw payload
string of every inbound message — empty and malformed payloads
included — performs no decoding and drops no message, and then runs
the deferred closes when the stream ends. -/
theorem loop_passes_raw_payloads (errs : CloseTarget → Bool) (msgs : List String) :
    subscribeLoop errs (msgs.map fun s => (false, s)) =
      msgs.map LoopEvent.callbackInvoked ++ shutdownEvents errs := by
  induction msgs with
  | nil => rfl
  | cons m ms ih => simp [subscribeLoop, ih]

/-- Claim C7, counterexample: on the transition to Closed the loop
closes the subscription's channel resource (the `PubSub`) first and
the subscribe connection last — not the order the specification
states. -/
theorem shutdown_close_order_claim_false :
    closeTargets (subscribeLoop (fun _ => false) [(true, "m")]) ≠
      [CloseTarget.subConn, CloseTarget.pubConn, CloseTarget.pubsub] ∧
    closeTargets (subscribeLoop (fun _ => false) [(true, "m")]) =
      [CloseTarget.pubsub, CloseTarget.pubConn, CloseTarget.subConn] := by
  decide

/-- Claim C7, amended: on any run of the subscriber goroutine the
close attempts happen in the order channel resource (`PubSub`), then
publish connection, then subscribe connection; every close error is
logged, and the goroutine propagates none of them. -/
theorem shutdown_close_order (errs : CloseTarget → Bool) (ms : List (Bool × String)) :
    closeTargets (subscribeLoop errs ms) =
      [CloseTarget.pubsub, CloseTarget.pubConn, CloseTarget.subConn] ∧
    ∀ t, errs t = true → LoopEvent.logErrorOn t ∈ subscribeLoop errs ms := by
  induction ms with
  | nil =>
      exact ⟨closeTargets_shutdownEvents errs,
        fun t ht => logErrorOn_mem_shutdownEvents errs t ht⟩
  | cons hd tl ih =>
      obtain ⟨sig, payload⟩ := hd
      cases sig with
      | true =>
          exact ⟨closeTargets_shutdownEvents errs,
            fun t ht => logErrorOn_mem_shutdownEvents errs t ht⟩
      | false =>
          refine ⟨?_, fun t ht => ?_⟩
          · show closeTargets (LoopEvent.callbackInvoked payload :: subscribeLoop errs tl) = _
            simpa [closeTargets] using ih.1
          · show LoopEvent.logErrorOn t ∈
              LoopEvent.callbackInvoked payload :: subscribeLoop errs tl
            exact List.mem_cons_of_mem _ (ih.2 t ht)

/-- Witness for the amended Claim C7 at a concrete failing close. -/
theorem shutdown_close_order_witness :
    LoopEvent.logErrorOn CloseTarget.pubsub ∈ subscribeLoop (fun _ => true) [] :=
  (shutdown_close_order (fun _ => true) []).2 CloseTarget.pubsub rfl

/-- Claim C8: once the shutdown signal is observed set at a message
receipt, the loop transitions to Closed without processing that
message: the trace holds exactly the callbacks for the messages
received while the signal was clear, followed by the deferred closes —
no callback for the triggering message or anything after it. -/
theorem close_signal_stops_processing (errs : CloseTarget → Bool) (pre : List String)
    (p : String) (post : List (Bool × String)) :
    subscribeLoop errs ((pre.map fun s => (false, s)) ++ (true, p) :: post) =
      pre.map LoopEvent.callbackInvoked ++ shutdownEvents errs := by
  induction pre with
  | nil => rfl
  | cons a as ih => simp [subscribeLoop, ih]

/-- Claim C4, counterexample: with a non-empty address list whose
first entry is the empty string and a non-empty namespace,
`NewWatcher` still returns a configuration error, so the stated
condition is not exact. -/
theorem newWatcher_config_error_claim_false :
    ¬ (∀ (o : WatcherOptions) (n : Nat),
        (∃ e, newWatcherClients o n = Except.error e) ↔
          (o.Addresses = [] ∨ o.Namespace = "" ∨
            (o.UseSentinel = true ∧ o.MasterName = ""))) := by
  intro h
  have hc := (h ⟨[""], "ns", false, "", 0, "", "", ""⟩ 1).mp
    ⟨"redis: missing redis node address(es)", rfl⟩
  exact absurd hc (by decide)

/-- Claim C4, amended: before any client is built or pinged,
`NewWatcher` returns a configuration error exactly when the address
list is empty or its first address is the empty string, or the
namespace is empty, or sentinel mode is enabled without a master
name. -/
theorem newWatcher_config_error_iff (o : WatcherOptions) (n : Nat) :
    (∃ e, newWatcherClients o n = Except.error e) ↔
      (o.Addresses = [] ∨ o.Addresses.head? = some "" ∨ o.Namespace = "" ∨
        (o.UseSentinel = true ∧ o.MasterName = "")) := by
  unfold newWatcherClients
  split_ifs <;>
    first
      | (apply iff_of_true ⟨_, rfl⟩; tauto)
      | (refine iff_of_false (fun hex => ?_) (by tauto)
         obtain ⟨e, he⟩ := hex
         exact he.elim)

/-- Witness for the amended Claim C4 at concrete empty options. -/
theorem newWatcher_config_error_iff_witness :
    ∃ e, newWatcherClients ⟨[], "", false, "", 0, "", "", ""⟩ 1 = Except.error e :=
  (newWatcher_config_error_iff ⟨[], "", false, "", 0, "", "", ""⟩ 1).mpr (Or.inl rfl)

/-- Claim C9, counterexample: in single-node mode with
`MaxConnections` unspecified, `NewWatcher` builds both clients without
any pool size (the `PoolSize` field stays zero), not with ten times
the CPU count. -/
theorem pool_size_claim_false :
    ¬ (∀ (o : WatcherOptions) (n : Nat) (sub pub : ClientSpec),
        o.MaxConnections = 0 → newWatcherClients o n = Except.ok (sub, pub) →
        sub.poolSize = 10 * n ∧ pub.poolSize = 10 * n) := by
  intro h
  have hc := h ⟨["127.0.0.1:6379"], "ns", false, "", 0, "", "", ""⟩ 1
    ⟨ClientKind.single, ["127.0.0.1:6379"], "", "", 0⟩
    ⟨ClientKind.single, ["127.0.0.1:6379"], "", "", 0⟩ rfl rfl
  exact absurd hc.1 (by decide)

/-- Claim C9, amended: with `MaxConnections` unspecified, the sentinel
and clustered constructions set both clients' pool size to ten times
the CPU count, while the single-node construction leaves the pool size
unset and so falls back to the client library's own default. -/
theorem pool_size_default_by_mode (o : WatcherOptions) (n : Nat) (sub pub : ClientSpec)
    (hmax : o.MaxConnections = 0)
    (hok : newWatcherClients o n = Except.ok (sub, pub)) :
    (sub.kind = ClientKind.single ∧ sub.poolSize = 0 ∧ pub.poolSize = 0) ∨
    (sub.kind ≠ ClientKind.single ∧ sub.poolSize = 10 * n ∧ pub.poolSize = 10 * n) := by
  unfold newWatcherClients at hok
  rw [hmax] at hok
  simp only [if_pos rfl] at hok
  split_ifs at hok
  · injection hok with h
    obtain ⟨rfl, rfl⟩ := Prod.mk.inj h
    exact Or.inr ⟨fun hk => ClientKind.noConfusion hk, rfl, rfl⟩
  · injection hok with h
    obtain ⟨rfl, rfl⟩ := Prod.mk.inj h
    exact Or.inr ⟨fun hk => ClientKind.noConfusion hk, rfl, rfl⟩
  · injection hok with h
    obtain ⟨rfl, rfl⟩ := Prod.mk.inj h
    exact Or.inl ⟨rfl, rfl, rfl⟩

/-- Witness for the amended Claim C9 at a concrete sentinel
construction with one CPU. -/
theorem pool_size_default_by_mode_witness :
    ((⟨ClientKind.failover, ["a"], "m", "", 10⟩ : ClientSpec).kind =
        ClientKind.single ∧
      (⟨ClientKind.failover, ["a"], "m", "", 10⟩ : ClientSpec).poolSize = 0 ∧
      (⟨ClientKind.failover, ["a"], "m", "", 10⟩ : ClientSpec).poolSize = 0) ∨
    ((⟨ClientKind.failover, ["a"], "m", "", 10⟩ : ClientSpec).kind ≠
        ClientKind.single ∧
      (⟨ClientKind.failover, ["a"], "m", "", 10⟩ : ClientSpec).poolSize = 10 * 1 ∧
      (⟨ClientKind.failover, ["a"], "m", "", 10⟩ : ClientSpec).poolSize = 10 * 1) :=
  pool_size_default_by_mode ⟨["a"], "ns", true, "m", 0, "", "", ""⟩ 1 _ _ rfl rfl

/-- Claim C10: `SetUpdateCallback` stores its argument unconditionally
and always returns a `nil` error; after `initConfig` the stored
callback is never `nil`, so the loop's invocation succeeds; but
setting a `nil` callback leaves a slot whose invocation is a nil
dereference, so the guarantee holds only while `SetUpdateCallback` is
never called with `nil`. -/
theorem setUpdateCallback_contract :
    (∀ (w : CallbackState) (cb : Option (String → List String)),
        setUpdateCallbackM cb w = ({ callback := cb }, none)) ∧
    (∀ (w : CallbackState) (ocb : Option (String → List String)) (payload : String),
        ∃ out, invokeCallback (initConfigCallback ocb w) payload = Except.ok out) ∧
    (∀ (w : CallbackState) (payload : String),
        ∃ msg, invokeCallback ((setUpdateCallbackM none w).1) payload =
          Except.error msg) := by
  refine ⟨fun w cb => rfl, fun w ocb payload => ?_, fun w payload => ⟨_, rfl⟩⟩
  cases ocb with
  | none => exact ⟨_, rfl⟩
  | some f => exact ⟨_, rfl⟩

end RedisWatcher
